import Mathlib

/-!
Verification of the `human.md` guard core (`src/guard/core.py`) against its
natural-language specification.

The Python module is shallowly embedded:

* the generic parsed-configuration value (nested dict / list / str / int /
  None) becomes the inductive type `YVal`; Python's dynamic attribute and
  item access (`.get`, `[...]`, `in`, iteration) become `Except PyErr`
  computations whose `error` results model the exceptions (`AttributeError`,
  `KeyError`, `TypeError`, `ValueError`) the interpreter would raise;
* timestamps are modelled at full precision as naive seconds (`Int`); every
  float comparison in the source (`total_seconds()/60 >= m` and friends) is
  embedded as the exact equivalent integer comparison, and Python `int()`
  truncation becomes `Int.div` (T-division, which truncates toward zero);
* the session-log records are projected onto the fields `check_break`,
  `start_session` and `end_session` actually read; string timestamp fields
  are abstracted by `IsoS`, recording whether the string is empty, parses
  under `_parse_naive`, or fails to parse (a `ValueError`), and non-string
  JSON values (`null`, numbers) are kept separate because the source
  distinguishes the exception classes they produce;
* the filesystem side artifacts (activity sentinel, work-since-break
  sentinel, notification markers) become association lists inside
  `GuardState`.
-/

namespace HumanGuard

/-- Generic value produced by the embedded YAML-subset parser and consumed
by `check_schedule` (Python: nested `dict` / `list` / `str` / `int` /
`None`). -/
inductive YVal where
  | s (str : String)
  | i (n : Int)
  | nullV
  | m (entries : List (String × YVal))
  | seqV (items : List YVal)
  deriving Repr

/-- Python exception classes that the embedded fragments can raise. -/
inductive PyErr where
  | attrErr
  | keyErr
  | typeErr
  | valueErr
  deriving Repr, DecidableEq

/-- Association-list lookup, first match wins (Python dict keys are unique;
the parser's insert keeps them unique). -/
def alistGet {α : Type} (l : List (String × α)) (k : String) : Option α :=
  match l with
  | [] => none
  | (k', v) :: rest => if k' = k then some v else alistGet rest k

/-- Removal of a key from an association list (models deleting a sentinel
file named by that key). -/
def alistRemove {α : Type} (l : List (String × α)) (k : String) : List (String × α) :=
  l.filter (fun p => p.1 ≠ k)

/-- Python `dict[key] = value`: overwrite in place, else append. -/
def dictSet (entries : List (String × YVal)) (k : String) (v : YVal) :
    List (String × YVal) :=
  match entries with
  | [] => [(k, v)]
  | (k', v') :: rest => if k' = k then (k, v) :: rest else (k', v') :: dictSet rest k v

/-- Python truthiness of a parsed value (`if blocked_days:` etc.). -/
def YVal.truthy : YVal → Bool
  | .s str => str != ""
  | .i n => n != 0
  | .nullV => false
  | .m e => !e.isEmpty
  | .seqV l => !l.isEmpty

/-- Python `obj.get(key, default)`: requires `obj` to be a dict, otherwise
the attribute lookup raises `AttributeError`. -/
def pyGet (v : YVal) (k : String) (dflt : YVal) : Except PyErr YVal :=
  match v with
  | .m e => .ok ((alistGet e k).getD dflt)
  | _ => .error .attrErr

/-- Python `obj[key]` with a string key: `KeyError` when the key is absent
from a dict, `TypeError` on lists/strings/ints/None. -/
def pyIndex (v : YVal) (k : String) : Except PyErr YVal :=
  match v with
  | .m e =>
    match alistGet e k with
    | some x => .ok x
    | none => .error .keyErr
  | _ => .error .typeErr

/-- Substring test, `need` occurring inside `hay` (Python `x in some_str`). -/
def containsSub (hay need : String) : Bool :=
  (List.range (hay.length + 1)).any fun k =>
    List.isPrefixOf need.toList (hay.toList.drop k)

/-- Python `x in v` for a string `x`: membership for lists (string equality
against each element), key membership for dicts, substring test for
strings, `TypeError` for ints and `None`. -/
def pyContains (x : String) (v : YVal) : Except PyErr Bool :=
  match v with
  | .seqV items =>
    .ok (items.any (fun it =>
      match it with
      | .s t => t == x
      | _ => false))
  | .m e => .ok (e.any (fun p => p.1 = x))
  | .s str => .ok (containsSub str x)
  | _ => .error .typeErr

/-- Python `for bp in v`: lists yield their items, dicts their keys,
strings their characters; ints and `None` raise `TypeError`. -/
def pyIterList (v : YVal) : Except PyErr (List YVal) :=
  match v with
  | .seqV items => .ok items
  | .m e => .ok (e.map (fun p => YVal.s p.1))
  | .s str => .ok (str.toList.map (fun c => YVal.s (String.singleton c)))
  | _ => .error .typeErr

/-- Digit run to number, for the embedded Python `int()` call. -/
def digitsToNat (l : List Char) : Nat :=
  l.foldl (fun acc c => acc * 10 + (c.toNat - '0'.toNat)) 0

/-- Whitespace trimming on both ends (Python `str.strip()`). -/
def trimChars (l : List Char) : List Char :=
  ((l.dropWhile Char.isWhitespace).reverse.dropWhile Char.isWhitespace).reverse

/-- Python `int(s)` on a character list: optional surrounding whitespace,
optional sign, then decimal digits; anything else raises `ValueError`
(`none`). -/
def parsePyIntChars (l0 : List Char) : Option Int :=
  let t := trimChars l0
  let signCore : Bool × List Char :=
    match t with
    | '-' :: rest => (true, rest)
    | '+' :: rest => (false, rest)
    | other => (false, other)
  let core := signCore.2
  if core.isEmpty || !core.all Char.isDigit then none
  else
    some (if signCore.1 then -(Int.ofNat (digitsToNat core))
          else Int.ofNat (digitsToNat core))

/-- Python `s.split(":")` on a character list. -/
def splitColon : List Char → List (List Char)
  | [] => [[]]
  | c :: rest =>
    let r := splitColon rest
    if c = ':' then [] :: r
    else
      match r with
      | h :: t => (c :: h) :: t
      | [] => [[c]]

/-- Embedding of `_parse_time` applied to a value pulled out of the parsed
config. A non-string raises `AttributeError` (no `.split`); a string that
does not split into exactly two integer fields in `0..23` × `0..59` raises
`ValueError` (unpacking, `int()`, or the `datetime.time` constructor). -/
def parseTimeV (v : YVal) : Except PyErr (Nat × Nat) :=
  match v with
  | .s str =>
    match splitColon str.toList with
    | [h, mi] =>
      match parsePyIntChars h, parsePyIntChars mi with
      | some hn, some mn =>
        if 0 ≤ hn ∧ hn ≤ 23 ∧ 0 ≤ mn ∧ mn ≤ 59 then
          .ok (hn.toNat, mn.toNat)
        else
          .error .valueErr
      | _, _ => .error .valueErr
    | _ => .error .valueErr
  | _ => .error .attrErr

/-- Embedding of `_time_to_minutes`. -/
def timeToMinutes (t : Nat × Nat) : Nat := t.1 * 60 + t.2

/-- The instant handed to `check_schedule`: weekday name (what
`now.strftime("%A")` returns) and wall-clock hour/minute; seconds and
microseconds are truncated by the source before any comparison, so the
model carries minutes only. -/
structure NowT where
  dayName : String
  hour : Nat
  minute : Nat
  deriving Repr, DecidableEq

/-- Result dict of `check_schedule`. `period_name` is whatever value sits
under the period's `name` key (the source does not coerce it to a string). -/
structure Verdict where
  status : String
  reason : Option String
  period_name : Option YVal
  deriving Repr

/-- Embedding of the `for bp in blocked_periods` loop of `check_schedule`:
first period containing the minute wins and its `name` (default
`"unknown"`) is returned; any malformed period reached before a match
propagates its exception. -/
def checkBlockedPeriods (nowMinutes : Nat) : List YVal → Except PyErr (Option YVal)
  | [] => .ok none
  | bp :: rest => do
    let sv ← pyIndex bp "start"
    let st ← parseTimeV sv
    let ev ← pyIndex bp "end"
    let et ← parseTimeV ev
    let bpStart := timeToMinutes st
    let bpEnd := timeToMinutes et
    let inBlocked :=
      if bpStart < bpEnd then
        decide (bpStart ≤ nowMinutes ∧ nowMinutes < bpEnd)
      else
        decide (nowMinutes ≥ bpStart ∨ nowMinutes < bpEnd)
    if inBlocked then
      let nameV ← pyGet bp "name" (.s "unknown")
      return some nameV
    else
      checkBlockedPeriods nowMinutes rest

/-- Embedding of `check_schedule(config, now)`. `config` is the top-level
parsed mapping (the caller guarantees a dict). Every dynamic access is
spelled out so that the exceptions the Python code would propagate appear
as `.error` results. -/
def check_schedule (config : List (String × YVal)) (now : NowT) :
    Except PyErr Verdict := do
  let schedule := (alistGet config "schedule").getD (.m [])
  let allowed ← pyGet schedule "allowed_hours" (.m [])
  let startV ← pyGet allowed "start" (.s "00:00")
  let startT ← parseTimeV startV
  let endV ← pyGet allowed "end" (.s "23:59")
  let endT ← parseTimeV endV
  let nowMinutes := now.hour * 60 + now.minute
  let startMinutes := timeToMinutes startT
  let endMinutes0 := timeToMinutes endT
  let blockedDays ← pyGet schedule "blocked_days" (.seqV [])
  let dayBlocked ←
    if blockedDays.truthy then pyContains now.dayName blockedDays
    else pure false
  if dayBlocked then
    return ⟨"blocked", some "blocked_day", none⟩
  let endMinutes := if endMinutes0 = 0 then 24 * 60 else endMinutes0
  let inAllowed :=
    if startMinutes < endMinutes then
      decide (startMinutes ≤ nowMinutes ∧ nowMinutes < endMinutes)
    else
      decide (nowMinutes ≥ startMinutes ∨ nowMinutes < endMinutes)
  if ¬ inAllowed then
    return ⟨"blocked", some "outside_hours", none⟩
  let bpsV ← pyGet schedule "blocked_periods" (.seqV [])
  let bps ← pyIterList bpsV
  let bpHit ← checkBlockedPeriods nowMinutes bps
  if let some nameV := bpHit then
    return ⟨"blocked", some "blocked_period", some nameV⟩
  let windDown ← pyGet schedule "wind_down" .nullV
  if windDown.truthy then
    let wdV ← pyIndex windDown "start"
    let wdT ← parseTimeV wdV
    let wdStart := timeToMinutes wdT
    let inWindDown :=
      if wdStart < endMinutes then
        decide (wdStart ≤ nowMinutes ∧ nowMinutes < endMinutes)
      else
        decide (nowMinutes ≥ wdStart ∨ nowMinutes < endMinutes)
    if inWindDown then
      return ⟨"wind_down", none, none⟩
  return ⟨"ok", none, none⟩

/-! ### The inline YAML-subset parser

Transcription of `_preprocess_lines`, `_parse_scalar`,
`_strip_inline_comment`, `_parse_folded`, `_parse_mapping`,
`_parse_sequence`, `_do_parse_yaml` and `parse_yaml`. String manipulation
is carried out on `List Char` (Python indexes strings by codepoint). The
only exception the structural parser raises is the `ValueError("Empty
key")` of `_parse_mapping`; the `parse_yaml` wrapper converts any such
failure into the empty mapping. -/

/-- Double-quote character (kept out of literals for lexical hygiene). -/
def quoteChar : Char := Char.ofNat 34

/-- Single-quote character. -/
def aposChar : Char := Char.ofNat 39

/-- Normalization pass of `_preprocess_lines`: CRLF and CR to LF, tab to
two spaces. -/
def normChars : List Char → List Char
  | [] => []
  | '\r' :: '\n' :: rest => '\n' :: normChars rest
  | '\r' :: rest => '\n' :: normChars rest
  | '\t' :: rest => ' ' :: ' ' :: normChars rest
  | c :: rest => c :: normChars rest

/-- Python `s.split(sep)` for a single-character separator. -/
def splitChar (sep : Char) : List Char → List (List Char)
  | [] => [[]]
  | c :: rest =>
    let r := splitChar sep rest
    if c = sep then [] :: r
    else
      match r with
      | h :: t => (c :: h) :: t
      | [] => [[c]]

/-- One preprocessed line: indent width and stripped content. -/
structure PLine where
  indent : Nat
  content : List Char
  deriving Repr

/-- Embedding of `_preprocess_lines`: normalize, split into lines, drop
blank lines and full-line comments, record each remaining line's indent. -/
def preprocessLines (text : String) : List PLine :=
  (splitChar '\n' (normChars text.toList)).filterMap fun line =>
    let stripped := line.dropWhile Char.isWhitespace
    if stripped.isEmpty then none
    else if stripped.head? = some '#' then none
    else some ⟨line.length - stripped.length, stripped⟩

/-- Embedding of `_parse_scalar`: quoted strings unwrapped verbatim,
integers parsed, everything else a trimmed string. -/
def parseScalar (value0 : List Char) : YVal :=
  let value := trimChars value0
  if value.isEmpty then .s ""
  else if (value.head? = some quoteChar ∧ value.getLast? = some quoteChar) ∨
          (value.head? = some aposChar ∧ value.getLast? = some aposChar) then
    .s ((value.drop 1).dropLast.asString)
  else
    match parsePyIntChars value with
    | some n => .i n
    | none => .s (trimChars value0).asString

/-- Scan of `_strip_inline_comment`: position of the first `#` outside
quotes that is preceded by a space or tab, if any. -/
def findCommentCut (inq : Option Char) (prev : Option Char) (idx : Nat) :
    List Char → Option Nat
  | [] => none
  | c :: rest =>
    if c = quoteChar ∨ c = aposChar then
      let inq' := if inq = some c then none else if inq = none then some c else inq
      findCommentCut inq' (some c) (idx + 1) rest
    else if c = '#' ∧ inq = none ∧ 0 < idx ∧ (prev = some ' ' ∨ prev = some '\t') then
      some idx
    else
      findCommentCut inq (some c) (idx + 1) rest

/-- Embedding of `_strip_inline_comment`: cut at the comment and
right-strip, or return the value unchanged when no comment is found. -/
def stripInlineComment (value : List Char) : List Char :=
  match findCommentCut none none 0 value with
  | some i => ((value.take i).reverse.dropWhile Char.isWhitespace).reverse
  | none => value

/-- Line content starting with `"- "`. -/
def startsDash : List Char → Bool
  | '-' :: ' ' :: _ => true
  | _ => false

/-- Index of the first `':'` (callers guard on containment). -/
def idxOfColon : List Char → Nat
  | [] => 0
  | c :: rest => if c = ':' then 0 else 1 + idxOfColon rest

/-- Python `' '.join(parts)`. -/
def joinSpaces : List (List Char) → List Char
  | [] => []
  | [p] => p
  | p :: rest => p ++ ' ' :: joinSpaces rest

/-- Embedding of `_parse_folded`: collect deeper-indented lines; the
returned index is never before the starting one (the bound drives
termination of the callers). -/
def parseFolded (lines : Array PLine) (minIndent idx : Nat) :
    List (List Char) × {j : Nat // idx ≤ j} :=
  if h : idx < lines.size then
    let ln := lines[idx]
    if ln.indent < minIndent then ([], ⟨idx, Nat.le_refl _⟩)
    else
      let res := parseFolded lines minIndent (idx + 1)
      (ln.content :: res.1, ⟨res.2.1, Nat.le_of_succ_le res.2.2⟩)
  else ([], ⟨idx, Nat.le_refl _⟩)
termination_by lines.size - idx

mutual

/-- Embedding of the `_parse_mapping` loop: parse sibling `key: value`
lines at the current level into `acc`, returning the mapping and the index
of the first unconsumed line. -/
def parseMappingFrom (lines : Array PLine) (minIndent idx : Nat)
    (acc : List (String × YVal)) :
    Except PyErr ((List (String × YVal)) × {j : Nat // idx ≤ j}) :=
  if h : idx < lines.size then
    let ln := lines[idx]
    if ln.indent < minIndent then .ok (acc, ⟨idx, Nat.le_refl _⟩)
    else if ¬ ln.content.contains ':' ∨ startsDash ln.content then
      .ok (acc, ⟨idx, Nat.le_refl _⟩)
    else
      let colonPos := idxOfColon ln.content
      let key := (trimChars (ln.content.take colonPos)).asString
      if key = "" then .error .valueErr
      else
        let rest0 := trimChars (ln.content.drop (colonPos + 1))
        let rest := if rest0.isEmpty then rest0 else stripInlineComment rest0
        if rest = ['>'] then
          match parseFolded lines (ln.indent + 1) (idx + 1) with
          | (parts, ⟨j, hj⟩) =>
            match parseMappingFrom lines minIndent j
                (dictSet acc key (.s (joinSpaces parts).asString)) with
            | .error e => .error e
            | .ok (res, ⟨j2, hj2⟩) => .ok (res, ⟨j2, by omega⟩)
        else if ¬ rest.isEmpty then
          match parseMappingFrom lines minIndent (idx + 1)
              (dictSet acc key (parseScalar rest)) with
          | .error e => .error e
          | .ok (res, ⟨j2, hj2⟩) => .ok (res, ⟨j2, by omega⟩)
        else
          if h2 : idx + 1 < lines.size then
            let ln2 := lines[idx + 1]
            if ln2.indent > ln.indent then
              if startsDash ln2.content then
                match parseSequenceFrom lines ln2.indent (idx + 1) [] with
                | .error e => .error e
                | .ok (value, ⟨j, hj⟩) =>
                  match parseMappingFrom lines minIndent j
                      (dictSet acc key (.seqV value)) with
                  | .error e => .error e
                  | .ok (res, ⟨j2, hj2⟩) => .ok (res, ⟨j2, by omega⟩)
              else
                match parseMappingFrom lines ln2.indent (idx + 1) [] with
                | .error e => .error e
                | .ok (value, ⟨j, hj⟩) =>
                  match parseMappingFrom lines minIndent j
                      (dictSet acc key (.m value)) with
                  | .error e => .error e
                  | .ok (res, ⟨j2, hj2⟩) => .ok (res, ⟨j2, by omega⟩)
            else
              match parseMappingFrom lines minIndent (idx + 1)
                  (dictSet acc key .nullV) with
              | .error e => .error e
              | .ok (res, ⟨j2, hj2⟩) => .ok (res, ⟨j2, by omega⟩)
          else
            match parseMappingFrom lines minIndent (idx + 1)
                (dictSet acc key .nullV) with
            | .error e => .error e
            | .ok (res, ⟨j2, hj2⟩) => .ok (res, ⟨j2, by omega⟩)
  else .ok (acc, ⟨idx, Nat.le_refl _⟩)
termination_by lines.size - idx

/-- Embedding of the `_parse_sequence` loop: parse `- ` items at the
current level into `acc`. -/
def parseSequenceFrom (lines : Array PLine) (minIndent idx : Nat)
    (acc : List YVal) :
    Except PyErr ((List YVal) × {j : Nat // idx ≤ j}) :=
  if h : idx < lines.size then
    let ln := lines[idx]
    if ln.indent < minIndent then .ok (acc, ⟨idx, Nat.le_refl _⟩)
    else if ¬ startsDash ln.content then .ok (acc, ⟨idx, Nat.le_refl _⟩)
    else
      let content := trimChars (ln.content.drop 2)
      let itemIndent := ln.indent + 2
      if content.contains ':' ∧ ¬ content.head? = some quoteChar ∧
          ¬ content.head? = some aposChar then
        let cp := idxOfColon content
        let k := (trimChars (content.take cp)).asString
        let v := stripInlineComment (trimChars (content.drop (cp + 1)))
        match parseObjItemKeys lines itemIndent (idx + 1) [(k, parseScalar v)] with
        | .error e => .error e
        | .ok (obj, ⟨j, hj⟩) =>
          match parseSequenceFrom lines minIndent j (acc ++ [.m obj]) with
          | .error e => .error e
          | .ok (res, ⟨j2, hj2⟩) => .ok (res, ⟨j2, by omega⟩)
      else
        match parseSequenceFrom lines minIndent (idx + 1)
            (acc ++ [parseScalar content]) with
        | .error e => .error e
        | .ok (res, ⟨j2, hj2⟩) => .ok (res, ⟨j2, by omega⟩)
  else .ok (acc, ⟨idx, Nat.le_refl _⟩)
termination_by lines.size - idx

/-- Embedding of the continuation-key loop inside `_parse_sequence`:
remaining `key: value` lines of an object item at indent at least
`itemIndent` (no empty-key check is performed here, matching the source). -/
def parseObjItemKeys (lines : Array PLine) (itemIndent idx : Nat)
    (obj : List (String × YVal)) :
    Except PyErr ((List (String × YVal)) × {j : Nat // idx ≤ j}) :=
  if h : idx < lines.size then
    let ln := lines[idx]
    if ln.indent < itemIndent ∨ startsDash ln.content then
      .ok (obj, ⟨idx, Nat.le_refl _⟩)
    else if ¬ ln.content.contains ':' then .ok (obj, ⟨idx, Nat.le_refl _⟩)
    else
      let cp := idxOfColon ln.content
      let okKey := (trimChars (ln.content.take cp)).asString
      let ov0 := trimChars (ln.content.drop (cp + 1))
      let ov := if ov0.isEmpty then ov0 else stripInlineComment ov0
      if ov = ['>'] then
        match parseFolded lines (ln.indent + 1) (idx + 1) with
        | (parts, ⟨j, hj⟩) =>
          match parseObjItemKeys lines itemIndent j
              (dictSet obj okKey (.s (joinSpaces parts).asString)) with
          | .error e => .error e
          | .ok (res, ⟨j2, hj2⟩) => .ok (res, ⟨j2, by omega⟩)
      else if ¬ ov.isEmpty then
        match parseObjItemKeys lines itemIndent (idx + 1)
            (dictSet obj okKey (parseScalar ov)) with
        | .error e => .error e
        | .ok (res, ⟨j2, hj2⟩) => .ok (res, ⟨j2, by omega⟩)
      else
        if h2 : idx + 1 < lines.size then
          let ln2 := lines[idx + 1]
          if ln2.indent > ln.indent then
            if startsDash ln2.content then
              match parseSequenceFrom lines ln2.indent (idx + 1) [] with
              | .error e => .error e
              | .ok (value, ⟨j, hj⟩) =>
                match parseObjItemKeys lines itemIndent j
                    (dictSet obj okKey (.seqV value)) with
                | .error e => .error e
                | .ok (res, ⟨j2, hj2⟩) => .ok (res, ⟨j2, by omega⟩)
            else
              match parseMappingFrom lines ln2.indent (idx + 1) [] with
              | .error e => .error e
              | .ok (value, ⟨j, hj⟩) =>
                match parseObjItemKeys lines itemIndent j
                    (dictSet obj okKey (.m value)) with
                | .error e => .error e
                | .ok (res, ⟨j2, hj2⟩) => .ok (res, ⟨j2, by omega⟩)
          else
            match parseObjItemKeys lines itemIndent (idx + 1)
                (dictSet obj okKey .nullV) with
            | .error e => .error e
            | .ok (res, ⟨j2, hj2⟩) => .ok (res, ⟨j2, by omega⟩)
        else
          match parseObjItemKeys lines itemIndent (idx + 1)
              (dictSet obj okKey .nullV) with
          | .error e => .error e
          | .ok (res, ⟨j2, hj2⟩) => .ok (res, ⟨j2, by omega⟩)
  else .ok (obj, ⟨idx, Nat.le_refl _⟩)
termination_by lines.size - idx

end

/-- Embedding of `_do_parse_yaml`: preprocess, then parse a top-level
mapping; the only possible error is the empty-key `ValueError`. -/
def doParseYaml (text : String) : Except PyErr (List (String × YVal)) :=
  let lines := (preprocessLines text).toArray
  if lines.size = 0 then .ok []
  else
    match parseMappingFrom lines 0 0 [] with
    | .error e => .error e
    | .ok (result, _) => .ok result

/-- Embedding of `parse_yaml`: empty or whitespace-only input yields the
empty mapping, and the `try/except` wrapper converts any structural-parse
failure into the empty mapping. -/
def parse_yaml (text : String) : List (String × YVal) :=
  if text.toList.all Char.isWhitespace then []
  else
    match doParseYaml text with
    | .ok v => v
    | .error _ => []

/-! ### Session records and `check_break` -/

/-- Abstraction of a JSON string as seen by `_parse_naive`: the empty
string, a non-empty string that fails to parse as an ISO timestamp
(`ValueError`), or one that parses to the naive timestamp `t` in seconds. -/
inductive IsoS where
  | emptyS
  | badS
  | okS (t : Int)
  deriving Repr, DecidableEq

/-- A JSON field value as the session-log code distinguishes them:
`null`, a string, or an integer. -/
inductive FVal where
  | fnull
  | fstr (s : IsoS)
  | fint (n : Int)
  deriving Repr, DecidableEq

/-- Truthiness of `record.get(key)` (absent key defaults to `None`). -/
def fieldTruthy : Option FVal → Bool
  | none => false
  | some .fnull => false
  | some (.fstr s) => s ≠ .emptyS
  | some (.fint n) => n ≠ 0

/-- Python `record.get(key) is None`: key absent or value `null`. -/
def fieldIsNone : Option FVal → Bool
  | none => true
  | some .fnull => true
  | some (.fstr _) => false
  | some (.fint _) => false

/-- Exception classes raised by `_parse_naive`: `ValueError` from
`datetime.fromisoformat` on a bad string, `AttributeError` from calling
`.endswith` on a non-string (`None`, `int`). The distinction matters: the
`last_activity` handler catches only `(ValueError, TypeError)`. -/
inductive ParseErr where
  | valueErr
  | attrErr
  deriving Repr, DecidableEq

/-- Embedding of `_parse_naive(record[key])` for a record field. -/
def parseNaiveField : Option FVal → Except ParseErr Int
  | some (.fstr (.okS t)) => .ok t
  | some (.fstr .badS) => .error .valueErr
  | some (.fstr .emptyS) => .error .valueErr
  | some (.fint _) => .error .attrErr
  | some .fnull => .error .attrErr
  | none => .error .attrErr

/-- Session-log record, projected onto the fields the embedded operations
read. `work_since_break` is carried because the repository's tests and spec
require it, even though `check_break` in the source never reads it. -/
structure Record where
  id : String := ""
  start_time : Option FVal := none
  end_time : Option FVal := none
  project_dir : String := ""
  forced : Bool := false
  last_activity : Option FVal := none
  work_since_break : Option FVal := none
  deriving Repr, DecidableEq

/-- Orphan session threshold (hours), from the module constant. -/
def ORPHAN_THRESHOLD_HOURS : Int := 4

/-- One record qualifying for the active-session bypass in `check_break`:
open (`end_time is None`), truthy `start_time` that parses, and age within
`[0, 4h)`. Parse failures make the loop `continue`. -/
def activeBypass (now : Int) (s : Record) : Bool :=
  fieldIsNone s.end_time && fieldTruthy s.start_time &&
    match parseNaiveField s.start_time with
    | .ok start => decide (0 ≤ now - start ∧ now - start < ORPHAN_THRESHOLD_HOURS * 3600)
    | .error _ => false

/-- The per-record data extracted inside the accumulation loop of
`check_break`: parsed `end_time`, parsed `start_time`, and the interaction
anchor (`last_activity` when truthy and parseable under the
`(ValueError, TypeError)` net, else `end_time`). An `AttributeError` from a
non-string `last_activity` escapes the inner handler and skips the record,
matching the outer `except Exception: continue`. -/
def recordData (s : Record) : Except ParseErr (Int × Int × Int) := do
  let endT ← parseNaiveField s.end_time
  let startT ← parseNaiveField s.start_time
  let inter ←
    if fieldTruthy s.last_activity then
      match parseNaiveField s.last_activity with
      | .ok t => pure t
      | .error .valueErr => pure endT
      | .error .attrErr => throw ParseErr.attrErr
    else
      pure endT
  pure (endT, startT, inter)

/-- The backward accumulation loop of `check_break` over the already
reversed record list. State: cumulative work in seconds, the first
interaction anchor seen (`last_interaction`), and the chronologically later
record's start (`prev_session_start`). Returns when a gap of at least
`min_break_minutes` separates the later record's start from this record's
anchor. All minute-valued float comparisons of the source are embedded as
the exact second-valued integer comparisons. -/
def walkSessions (minBreak : Int) :
    List Record → Int → Option Int → Option Int → Int × Option Int
  | [], cum, lastInteraction, _ => (cum, lastInteraction)
  | s :: rest, cum, lastInteraction, prevStart =>
    if ¬ (fieldTruthy s.end_time ∧ fieldTruthy s.start_time) then
      walkSessions minBreak rest cum lastInteraction prevStart
    else
      match recordData s with
      | .error _ => walkSessions minBreak rest cum lastInteraction prevStart
      | .ok (endT, startT, inter) =>
        let breakFound :=
          match prevStart with
          | some ps => decide (ps - inter ≥ minBreak * 60)
          | none => false
        if breakFound then
          (cum, lastInteraction)
        else if endT - startT < minBreak * 60 then
          walkSessions minBreak rest cum lastInteraction (some startT)
        else
          walkSessions minBreak rest (cum + (endT - startT))
            (match lastInteraction with
             | none => some inter
             | some x => some x)
            (some startT)

/-- Result of `check_break`. -/
structure BreakResult where
  ok : Bool
  minutes_left : Int
  deriving Repr, DecidableEq

/-- Embedding of `check_break(log_path, min_break_minutes, now,
max_continuous_minutes)` over the loaded session list. Python's
`int(min_break_minutes - elapsed)` is `Int.tdiv` (truncation toward zero)
of the exact value `(minBreak*60 - elapsed_seconds)/60`. -/
def check_break (sessions : List Record) (minBreak : Int) (now : Int)
    (maxContinuous : Int) : BreakResult :=
  if sessions = [] then ⟨true, 0⟩
  else if sessions.any (activeBypass now) then ⟨true, 0⟩
  else
    match walkSessions minBreak sessions.reverse 0 none none with
    | (_, none) => ⟨true, 0⟩
    | (cum, some li) =>
      if cum < maxContinuous * 60 then ⟨true, 0⟩
      else if now - li ≥ minBreak * 60 then ⟨true, 0⟩
      else ⟨false, Int.tdiv (minBreak * 60 - (now - li)) 60⟩

/-! ### Session lifecycle: `start_session`, `end_session` -/

/-- The ledger plus the guard-private side artifacts: activity sentinels
(`.activity.<id>`, content abstracted like any timestamp string),
work-since-break sentinels (`.work-since-break.<id>`, integer content), and
notification markers (`.notified.<kind>.<id>`, modelled as kind/id pairs). -/
structure GuardState where
  sessions : List Record
  activity : List (String × IsoS)
  workSinceBreak : List (String × Int)
  markers : List (String × String)
  deriving Repr, DecidableEq

/-- Embedding of `start_session`: append an open record (fresh id `sid`
models `uuid.uuid4().hex[:8]`, `now` the written timestamp) and return the
id. -/
def start_session (st : GuardState) (sid : String) (now : Int)
    (projectDir : String) (forced : Bool) : GuardState × String :=
  ({ st with
      sessions := st.sessions ++ [{
        id := sid
        start_time := some (.fstr (.okS now))
        end_time := some .fnull
        project_dir := projectDir
        forced := forced }] }, sid)

/-- Mutation applied by `end_session` to the matched record: set
`end_time := now`, load `last_activity` from the activity sentinel when one
exists, then default a falsy `last_activity` to `end_time`. -/
def endSessionRecord (activityVal : Option IsoS) (now : Int) (r : Record) : Record :=
  let r1 := { r with end_time := some (.fstr (.okS now)) }
  let r2 :=
    match activityVal with
    | some content => { r1 with last_activity := some (.fstr content) }
    | none => r1
  if fieldTruthy r2.last_activity then r2
  else { r2 with last_activity := r2.end_time }

/-- Whether a record is the target of `end_session sid`: matching id and
`end_time is None`. (A record whose `end_time` key were absent would raise
`KeyError` in the source; such records are never produced by this module
and are not modelled.) -/
def endMatches (sid : String) (r : Record) : Bool :=
  decide (r.id = sid ∧ r.end_time = some .fnull)

/-- Apply `f` to the first record matching `end_session`'s search, leaving
the rest untouched (the loop `break`s at the first hit). -/
def updateFirstOpen (sid : String) (f : Record → Record) : List Record → List Record
  | [] => []
  | r :: rest =>
    if endMatches sid r then f r :: rest
    else r :: updateFirstOpen sid f rest

/-- Embedding of `end_session(log_path, session_id)` at wall-clock `now`.
The activity sentinel is consumed only when a matching open record exists
(the unlink sits inside the matched branch); notification markers for the
id are removed unconditionally. The source contains no code touching the
work-since-break sentinel, so `workSinceBreak` is carried through
unchanged. -/
def end_session (st : GuardState) (sid : String) (now : Int) : GuardState :=
  let hasMatch := st.sessions.any (endMatches sid)
  { st with
    sessions := updateFirstOpen sid (endSessionRecord (alistGet st.activity sid) now)
      st.sessions
    activity := if hasMatch then alistRemove st.activity sid else st.activity
    markers := st.markers.filter (fun p => p.2 ≠ sid) }

/-! ### Auxiliary definitions for the claims -/

/-- The window-membership test exactly as `check_schedule` computes it for
allowed hours, blocked periods and wind-down: half-open `[s, e)` when
`s < e`, wraparound `m ≥ s ∨ m < e` otherwise. -/
def codeWindowMember (s e m : Nat) : Bool :=
  if s < e then decide (s ≤ m ∧ m < e) else decide (m ≥ s ∨ m < e)

/-- Window membership as claim C5 words it: the wraparound form is used
exactly when `s > e`, the half-open form otherwise. Stated for comparison
with `codeWindowMember`; the two differ at `s = e`. -/
def specWindowMember (s e m : Nat) : Bool :=
  if s > e then decide (m ≥ s ∨ m < e) else decide (s ≤ m ∧ m < e)

/-- The spec's worked scenario: allowed hours 09:00–00:00, blocked period
`family` 18:00–21:00, wind-down 23:30. -/
def cfgScenario : List (String × YVal) :=
  [("framework", .s "human-md"),
   ("schedule", .m [
     ("allowed_hours", .m [("start", .s "09:00"), ("end", .s "00:00")]),
     ("blocked_periods", .seqV [.m [("name", .s "family"),
       ("start", .s "18:00"), ("end", .s "21:00")]]),
     ("wind_down", .m [("start", .s "23:30")])])]

/-- The scenario config with Sunday added as a blocked day. -/
def cfgScenarioDayBlocked : List (String × YVal) :=
  [("framework", .s "human-md"),
   ("schedule", .m [
     ("allowed_hours", .m [("start", .s "09:00"), ("end", .s "00:00")]),
     ("blocked_days", .seqV [.s "Sunday"]),
     ("blocked_periods", .seqV [.m [("name", .s "family"),
       ("start", .s "18:00"), ("end", .s "21:00")]]),
     ("wind_down", .m [("start", .s "23:30")])])]

/-- The scenario config with a second, overlapping blocked period listed
after `family`. -/
def cfgScenarioOverlap : List (String × YVal) :=
  [("framework", .s "human-md"),
   ("schedule", .m [
     ("allowed_hours", .m [("start", .s "09:00"), ("end", .s "00:00")]),
     ("blocked_periods", .seqV [
       .m [("name", .s "family"), ("start", .s "18:00"), ("end", .s "21:00")],
       .m [("name", .s "evening"), ("start", .s "17:00"), ("end", .s "22:00")]]),
     ("wind_down", .m [("start", .s "23:30")])])]

/-- The scenario config with a blocked period inside the wind-down window. -/
def cfgScenarioLatePeriod : List (String × YVal) :=
  [("framework", .s "human-md"),
   ("schedule", .m [
     ("allowed_hours", .m [("start", .s "09:00"), ("end", .s "00:00")]),
     ("blocked_periods", .seqV [.m [("name", .s "late"),
       ("start", .s "23:40"), ("end", .s "23:50")]]),
     ("wind_down", .m [("start", .s "23:30")])])]

/-- A config carrying the schema marker whose first blocked period lacks a
`start` key. -/
def cfgC3bad : List (String × YVal) :=
  [("framework", .s "human-md"),
   ("schedule", .m [
     ("blocked_periods", .seqV [.m [("name", .s "x"), ("end", .s "21:00")]])])]

/-- Full-day allowed hours with a single blocked period whose bounds are
the given strings, for the C5 window-semantics theorem. -/
def cfgBP (sv ev : String) : List (String × YVal) :=
  [("schedule", .m [
     ("allowed_hours", .m [("start", .s "00:00"), ("end", .s "00:00")]),
     ("blocked_periods", .seqV [.m [("name", .s "p"),
       ("start", .s sv), ("end", .s ev)]])])]

/-- A config whose allowed hours are the given strings and nothing else,
for the C5 window-semantics theorem. -/
def cfgAH (sv ev : String) : List (String × YVal) :=
  [("schedule", .m [
     ("allowed_hours", .m [("start", .s sv), ("end", .s ev)])])]

/-- Config with a degenerate blocked period whose start equals its end. -/
def cfgC5noon : List (String × YVal) :=
  [("schedule", .m [
     ("allowed_hours", .m [("start", .s "00:00"), ("end", .s "23:59")]),
     ("blocked_periods", .seqV [.m [("name", .s "noon"),
       ("start", .s "12:00"), ("end", .s "12:00")]])])]

/-- The failing ledger record of the repository's own intra-session-break
test: closed session 10:56–22:29 with `last_activity` 22:28 and
`work_since_break` 88 (all timestamps as seconds since midnight). -/
def c1Record : Record :=
  { id := "long-session"
    start_time := some (.fstr (.okS 39360))
    end_time := some (.fstr (.okS 80940))
    last_activity := some (.fstr (.okS 80880))
    work_since_break := some (.fint 88) }

/-- An open record used by the C2 failing input. -/
def c2Open : Record :=
  { id := "ab12cd34"
    start_time := some (.fstr (.okS 1000))
    end_time := some .fnull
    project_dir := "/tmp" }

/-- The C2 failing state: one open session with both an activity sentinel
and a work-since-break sentinel present. -/
def c2State : GuardState :=
  { sessions := [c2Open]
    activity := [("ab12cd34", .okS 2000)]
    workSinceBreak := [("ab12cd34", 88)]
    markers := [] }

/-- A closed 150-minute session (seconds 0 to 9000) with no
`last_activity`, for the C6 counterexample. -/
def c6Record : Record :=
  { id := "s1"
    start_time := some (.fstr (.okS 0))
    end_time := some (.fstr (.okS 9000)) }

/-- Allowed hours 09:00–17:00 with a blocked period that covers evening
minutes the allowed window already excludes (for the hours-over-period
precedence exhibit). -/
def cfgC4HoursPeriod : List (String × YVal) :=
  [("framework", .s "human-md"),
   ("schedule", .m [
     ("allowed_hours", .m [("start", .s "09:00"), ("end", .s "17:00")]),
     ("blocked_periods", .seqV [.m [("name", .s "evening"),
       ("start", .s "18:00"), ("end", .s "21:00")]])])]

/-- Allowed hours 09:00–17:00 with a wind-down start of 20:00, whose
wraparound window covers 20:30 although that minute is already outside
the allowed hours (for the hours-over-wind-down precedence exhibit). -/
def cfgC4HoursWind : List (String × YVal) :=
  [("framework", .s "human-md"),
   ("schedule", .m [
     ("allowed_hours", .m [("start", .s "09:00"), ("end", .s "17:00")]),
     ("wind_down", .m [("start", .s "20:00")])])]

/-- Allowed hours and a wind-down start given as strings, with no blocked
periods, for the C5 wind-down window-semantics conjunct. -/
def cfgWD (sv ev wv : String) : List (String × YVal) :=
  [("schedule", .m [
     ("allowed_hours", .m [("start", .s sv), ("end", .s ev)]),
     ("wind_down", .m [("start", .s wv)])])]

/-! ### Claim theorems -/

/-- Helper: the blocked-day check is applied first; when it fires, the
verdict is blocked_day with no condition at all on blocked periods or
wind-down (they are never evaluated). -/
theorem checkSchedule_blocked_day_wins (config : List (String × YVal)) (se ae : List (String × YVal))
    (st et : Nat × Nat) (now : NowT)
    (hsched : (alistGet config "schedule").getD (.m []) = .m se)
    (hah : (alistGet se "allowed_hours").getD (.m []) = .m ae)
    (hst : parseTimeV ((alistGet ae "start").getD (.s "00:00")) = .ok st)
    (het : parseTimeV ((alistGet ae "end").getD (.s "23:59")) = .ok et)
    (htr : ((alistGet se "blocked_days").getD (.seqV [])).truthy = true)
    (hcont : pyContains now.dayName ((alistGet se "blocked_days").getD (.seqV []))
      = .ok true) :
    check_schedule config now = .ok ⟨"blocked", some "blocked_day", none⟩ := by
  unfold check_schedule
  rw [hsched]
  simp only [pyGet, hah, hst, het, htr, hcont, Bind.bind, Except.bind,
    Pure.pure, Except.pure, if_true]

/-- Helper: the allowed-hours check is applied second; when the day check
passes and the minute is outside the (midnight-adjusted) allowed window,
the verdict is outside_hours with no condition on blocked periods or
wind-down. -/
theorem checkSchedule_outside_hours_second (config : List (String × YVal)) (se ae : List (String × YVal))
    (st et : Nat × Nat) (now : NowT)
    (hsched : (alistGet config "schedule").getD (.m []) = .m se)
    (hah : (alistGet se "allowed_hours").getD (.m []) = .m ae)
    (hst : parseTimeV ((alistGet ae "start").getD (.s "00:00")) = .ok st)
    (het : parseTimeV ((alistGet ae "end").getD (.s "23:59")) = .ok et)
    (hday : ((alistGet se "blocked_days").getD (.seqV [])).truthy = false ∨
      pyContains now.dayName ((alistGet se "blocked_days").getD (.seqV []))
        = .ok false)
    (hwm : codeWindowMember (timeToMinutes st)
      (if timeToMinutes et = 0 then 24 * 60 else timeToMinutes et)
      (now.hour * 60 + now.minute) = false) :
    check_schedule config now = .ok ⟨"blocked", some "outside_hours", none⟩ := by
  have hwm2 : (if timeToMinutes st <
        (if timeToMinutes et = 0 then 24 * 60 else timeToMinutes et) then
      decide (timeToMinutes st ≤ now.hour * 60 + now.minute ∧
        now.hour * 60 + now.minute <
          (if timeToMinutes et = 0 then 24 * 60 else timeToMinutes et))
    else
      decide (now.hour * 60 + now.minute ≥ timeToMinutes st ∨
        now.hour * 60 + now.minute <
          (if timeToMinutes et = 0 then 24 * 60 else timeToMinutes et))) = false := hwm
  unfold check_schedule
  rw [hsched]
  rcases hday with h | h
  · simp only [pyGet, hah, hst, het, h, Bind.bind, Except.bind,
      Pure.pure, Except.pure, Bool.false_eq_true, if_false]
    rw [hwm2]
    rfl
  · cases htr : ((alistGet se "blocked_days").getD (.seqV [])).truthy
    · simp only [pyGet, hah, hst, het, htr, Bind.bind, Except.bind,
        Pure.pure, Except.pure, Bool.false_eq_true, if_false]
      rw [hwm2]
      rfl
    · simp only [pyGet, hah, hst, het, htr, h, Bind.bind, Except.bind,
        Pure.pure, Except.pure, Bool.false_eq_true, if_false, if_true]
      rw [hwm2]
      rfl

/-- Helper: the blocked-period check is applied third; when the day check
passes, the minute is inside the allowed window, and the period loop
finds a match, the verdict carries that period name with no condition on
wind-down. -/
theorem checkSchedule_blocked_period_third (config : List (String × YVal)) (se ae : List (String × YVal))
    (st et : Nat × Nat) (now : NowT) (items : List YVal) (nameV : YVal)
    (hsched : (alistGet config "schedule").getD (.m []) = .m se)
    (hah : (alistGet se "allowed_hours").getD (.m []) = .m ae)
    (hst : parseTimeV ((alistGet ae "start").getD (.s "00:00")) = .ok st)
    (het : parseTimeV ((alistGet ae "end").getD (.s "23:59")) = .ok et)
    (hday : ((alistGet se "blocked_days").getD (.seqV [])).truthy = false ∨
      pyContains now.dayName ((alistGet se "blocked_days").getD (.seqV []))
        = .ok false)
    (hwm : codeWindowMember (timeToMinutes st)
      (if timeToMinutes et = 0 then 24 * 60 else timeToMinutes et)
      (now.hour * 60 + now.minute) = true)
    (hbps : (alistGet se "blocked_periods").getD (.seqV []) = .seqV items)
    (hhit : checkBlockedPeriods (now.hour * 60 + now.minute) items
      = .ok (some nameV)) :
    check_schedule config now =
      .ok ⟨"blocked", some "blocked_period", some nameV⟩ := by
  have hwm2 : (if timeToMinutes st <
        (if timeToMinutes et = 0 then 24 * 60 else timeToMinutes et) then
      decide (timeToMinutes st ≤ now.hour * 60 + now.minute ∧
        now.hour * 60 + now.minute <
          (if timeToMinutes et = 0 then 24 * 60 else timeToMinutes et))
    else
      decide (now.hour * 60 + now.minute ≥ timeToMinutes st ∨
        now.hour * 60 + now.minute <
          (if timeToMinutes et = 0 then 24 * 60 else timeToMinutes et))) = true := hwm
  unfold check_schedule
  rw [hsched]
  rcases hday with h | h
  · simp only [pyGet, hah, hst, het, h, hbps, pyIterList, hhit, Bind.bind,
      Except.bind, Pure.pure, Except.pure, Bool.false_eq_true, if_false]
    rw [hwm2]
    rfl
  · cases htr : ((alistGet se "blocked_days").getD (.seqV [])).truthy
    · simp only [pyGet, hah, hst, het, htr, hbps, pyIterList, hhit, Bind.bind,
        Except.bind, Pure.pure, Except.pure, Bool.false_eq_true, if_false]
      rw [hwm2]
      rfl
    · simp only [pyGet, hah, hst, het, htr, h, hbps, pyIterList, hhit,
        Bind.bind, Except.bind, Pure.pure, Except.pure, Bool.false_eq_true,
        if_false, if_true]
      rw [hwm2]
      rfl

/-- Helper: in the period loop, a matching head period wins immediately
(its name is returned and the remaining listed periods are ignored). -/
theorem checkBlockedPeriods_head_match_wins (mnow : Nat) (e : List (String × YVal)) (sv ev : YVal)
    (st et : Nat × Nat) (rest : List YVal)
    (hs : alistGet e "start" = some sv) (hps : parseTimeV sv = .ok st)
    (he : alistGet e "end" = some ev) (hpe : parseTimeV ev = .ok et)
    (hwm : codeWindowMember (timeToMinutes st) (timeToMinutes et) mnow = true) :
    checkBlockedPeriods mnow (.m e :: rest) =
      .ok (some ((alistGet e "name").getD (.s "unknown"))) := by
  have hwm2 : (if timeToMinutes st < timeToMinutes et then
      decide (timeToMinutes st ≤ mnow ∧ mnow < timeToMinutes et)
    else
      decide (mnow ≥ timeToMinutes st ∨ mnow < timeToMinutes et)) = true := hwm
  unfold checkBlockedPeriods
  simp only [pyIndex, hs, he, hps, hpe, pyGet, Bind.bind, Except.bind,
    Pure.pure, Except.pure]
  rw [hwm2]
  rfl

/-- Helper: in the period loop, a well-formed non-matching head period is
skipped and the verdict is decided by the remaining listed periods. -/
theorem checkBlockedPeriods_head_skip (mnow : Nat) (e : List (String × YVal)) (sv ev : YVal)
    (st et : Nat × Nat) (rest : List YVal)
    (hs : alistGet e "start" = some sv) (hps : parseTimeV sv = .ok st)
    (he : alistGet e "end" = some ev) (hpe : parseTimeV ev = .ok et)
    (hwm : codeWindowMember (timeToMinutes st) (timeToMinutes et) mnow = false) :
    checkBlockedPeriods mnow (.m e :: rest) = checkBlockedPeriods mnow rest := by
  have hwm2 : (if timeToMinutes st < timeToMinutes et then
      decide (timeToMinutes st ≤ mnow ∧ mnow < timeToMinutes et)
    else
      decide (mnow ≥ timeToMinutes st ∨ mnow < timeToMinutes et)) = false := hwm
  conv_lhs => rw [checkBlockedPeriods]
  simp only [pyIndex, hs, he, hps, hpe, pyGet, Bind.bind, Except.bind,
    Pure.pure, Except.pure]
  rw [hwm2]
  rfl

/-- Helper: the wind-down check is applied last among the blocking checks:
when day, hours and periods all pass, the verdict is wind_down or ok
according to membership in the wind-down window. -/
theorem checkSchedule_wind_down_fourth (config : List (String × YVal)) (se ae we : List (String × YVal))
    (st et wt : Nat × Nat) (now : NowT) (items : List YVal) (wv : YVal)
    (hsched : (alistGet config "schedule").getD (.m []) = .m se)
    (hah : (alistGet se "allowed_hours").getD (.m []) = .m ae)
    (hst : parseTimeV ((alistGet ae "start").getD (.s "00:00")) = .ok st)
    (het : parseTimeV ((alistGet ae "end").getD (.s "23:59")) = .ok et)
    (hday : ((alistGet se "blocked_days").getD (.seqV [])).truthy = false ∨
      pyContains now.dayName ((alistGet se "blocked_days").getD (.seqV []))
        = .ok false)
    (hwm : codeWindowMember (timeToMinutes st)
      (if timeToMinutes et = 0 then 24 * 60 else timeToMinutes et)
      (now.hour * 60 + now.minute) = true)
    (hbps : (alistGet se "blocked_periods").getD (.seqV []) = .seqV items)
    (hhit : checkBlockedPeriods (now.hour * 60 + now.minute) items = .ok none)
    (hwd : (alistGet se "wind_down").getD .nullV = .m we)
    (hwe : we.isEmpty = false)
    (hws : alistGet we "start" = some wv)
    (hwp : parseTimeV wv = .ok wt) :
    check_schedule config now =
      .ok (if codeWindowMember (timeToMinutes wt)
              (if timeToMinutes et = 0 then 24 * 60 else timeToMinutes et)
              (now.hour * 60 + now.minute)
           then ⟨"wind_down", none, none⟩
           else ⟨"ok", none, none⟩) := by
  have hwm2 : (if timeToMinutes st <
        (if timeToMinutes et = 0 then 24 * 60 else timeToMinutes et) then
      decide (timeToMinutes st ≤ now.hour * 60 + now.minute ∧
        now.hour * 60 + now.minute <
          (if timeToMinutes et = 0 then 24 * 60 else timeToMinutes et))
    else
      decide (now.hour * 60 + now.minute ≥ timeToMinutes st ∨
        now.hour * 60 + now.minute <
          (if timeToMinutes et = 0 then 24 * 60 else timeToMinutes et))) = true := hwm
  have hwdt : (YVal.m we).truthy = true := by
    simp [YVal.truthy, hwe]
  unfold check_schedule
  rw [hsched]
  rcases hday with h | h
  · simp only [pyGet, hah, hst, het, h, hbps, pyIterList, hhit, hwdt, hwd,
      pyIndex, hws, hwp, Bind.bind, Except.bind, Pure.pure, Except.pure,
      Bool.false_eq_true, if_false, if_true]
    rw [hwm2]
    simp [codeWindowMember]
    rw [apply_ite (Except.ok : Verdict → Except PyErr Verdict)]
  · cases htr : ((alistGet se "blocked_days").getD (.seqV [])).truthy
    · simp only [pyGet, hah, hst, het, htr, hbps, pyIterList, hhit, hwdt, hwd,
        pyIndex, hws, hwp, Bind.bind, Except.bind, Pure.pure, Except.pure,
        Bool.false_eq_true, if_false, if_true]
      rw [hwm2]
      simp [codeWindowMember]
      rw [apply_ite (Except.ok : Verdict → Except PyErr Verdict)]
    · simp only [pyGet, hah, hst, het, htr, h, hbps, pyIterList, hhit, hwdt,
        hwd, pyIndex, hws, hwp, Bind.bind, Except.bind, Pure.pure, Except.pure,
        Bool.false_eq_true, if_false, if_true]
      rw [hwm2]
      simp [codeWindowMember]
      rw [apply_ite (Except.ok : Verdict → Except PyErr Verdict)]

/-- Helper: when every check passes and wind-down is unset or falsy, the
verdict is ok. -/
theorem checkSchedule_ok_when_no_wind_down (config : List (String × YVal)) (se ae : List (String × YVal))
    (st et : Nat × Nat) (now : NowT) (items : List YVal)
    (hsched : (alistGet config "schedule").getD (.m []) = .m se)
    (hah : (alistGet se "allowed_hours").getD (.m []) = .m ae)
    (hst : parseTimeV ((alistGet ae "start").getD (.s "00:00")) = .ok st)
    (het : parseTimeV ((alistGet ae "end").getD (.s "23:59")) = .ok et)
    (hday : ((alistGet se "blocked_days").getD (.seqV [])).truthy = false ∨
      pyContains now.dayName ((alistGet se "blocked_days").getD (.seqV []))
        = .ok false)
    (hwm : codeWindowMember (timeToMinutes st)
      (if timeToMinutes et = 0 then 24 * 60 else timeToMinutes et)
      (now.hour * 60 + now.minute) = true)
    (hbps : (alistGet se "blocked_periods").getD (.seqV []) = .seqV items)
    (hhit : checkBlockedPeriods (now.hour * 60 + now.minute) items = .ok none)
    (hwt : ((alistGet se "wind_down").getD .nullV).truthy = false) :
    check_schedule config now = .ok ⟨"ok", none, none⟩ := by
  have hwm2 : (if timeToMinutes st <
        (if timeToMinutes et = 0 then 24 * 60 else timeToMinutes et) then
      decide (timeToMinutes st ≤ now.hour * 60 + now.minute ∧
        now.hour * 60 + now.minute <
          (if timeToMinutes et = 0 then 24 * 60 else timeToMinutes et))
    else
      decide (now.hour * 60 + now.minute ≥ timeToMinutes st ∨
        now.hour * 60 + now.minute <
          (if timeToMinutes et = 0 then 24 * 60 else timeToMinutes et))) = true := hwm
  unfold check_schedule
  rw [hsched]
  rcases hday with h | h
  · simp only [pyGet, hah, hst, het, h, hbps, pyIterList, hhit, hwt,
      Bind.bind, Except.bind, Pure.pure, Except.pure, Bool.false_eq_true,
      if_false]
    rw [hwm2]
    rfl
  · cases htr : ((alistGet se "blocked_days").getD (.seqV [])).truthy
    · simp only [pyGet, hah, hst, het, htr, hbps, pyIterList, hhit, hwt,
        Bind.bind, Except.bind, Pure.pure, Except.pure, Bool.false_eq_true,
        if_false]
      rw [hwm2]
      rfl
    · simp only [pyGet, hah, hst, het, htr, h, hbps, pyIterList, hhit, hwt,
        Bind.bind, Except.bind, Pure.pure, Except.pure, Bool.false_eq_true,
        if_false, if_true]
      rw [hwm2]
      rfl

/-- Claim C4: for every configuration and timestamp, `check_schedule`
applies its checks in the total precedence order blocked-day, then
allowed-hours membership, then blocked periods in listed order (first
match wins), then wind-down, first applicable winning: the seven
universal conjuncts state each step of the order over arbitrary
configurations (each requiring nothing about the checks that come after
it), and the ground conjuncts instantiate the spec's scenario — allowed
hours 09:00–00:00, blocked period `family` 18:00–21:00, wind-down 23:30
giving 08:59 blocked/outside_hours, 09:00 ok, 18:00
blocked/blocked_period("family"), 21:00 ok, 23:30 wind_down, 00:00
blocked/outside_hours — and exhibit each pairwise precedence: blocked
day over period (18:00), over hours (03:00) and over wind-down (23:45);
hours over a covering period (19:00) and over a covering wind-down
window (20:30); first listed period over a later overlapping one
(19:00); period over wind-down (23:45). -/
theorem c4_precedence_and_scenario :
    (∀ (config : List (String × YVal)) (se ae : List (String × YVal))
       (st et : Nat × Nat) (now : NowT),
      (alistGet config "schedule").getD (.m []) = .m se →
      (alistGet se "allowed_hours").getD (.m []) = .m ae →
      parseTimeV ((alistGet ae "start").getD (.s "00:00")) = .ok st →
      parseTimeV ((alistGet ae "end").getD (.s "23:59")) = .ok et →
      ((alistGet se "blocked_days").getD (.seqV [])).truthy = true →
      pyContains now.dayName ((alistGet se "blocked_days").getD (.seqV []))
        = .ok true →
      check_schedule config now = .ok ⟨"blocked", some "blocked_day", none⟩) ∧
    (∀ (config : List (String × YVal)) (se ae : List (String × YVal))
       (st et : Nat × Nat) (now : NowT),
      (alistGet config "schedule").getD (.m []) = .m se →
      (alistGet se "allowed_hours").getD (.m []) = .m ae →
      parseTimeV ((alistGet ae "start").getD (.s "00:00")) = .ok st →
      parseTimeV ((alistGet ae "end").getD (.s "23:59")) = .ok et →
      (((alistGet se "blocked_days").getD (.seqV [])).truthy = false ∨
        pyContains now.dayName ((alistGet se "blocked_days").getD (.seqV []))
          = .ok false) →
      codeWindowMember (timeToMinutes st)
        (if timeToMinutes et = 0 then 24 * 60 else timeToMinutes et)
        (now.hour * 60 + now.minute) = false →
      check_schedule config now = .ok ⟨"blocked", some "outside_hours", none⟩) ∧
    (∀ (config : List (String × YVal)) (se ae : List (String × YVal))
       (st et : Nat × Nat) (now : NowT) (items : List YVal) (nameV : YVal),
      (alistGet config "schedule").getD (.m []) = .m se →
      (alistGet se "allowed_hours").getD (.m []) = .m ae →
      parseTimeV ((alistGet ae "start").getD (.s "00:00")) = .ok st →
      parseTimeV ((alistGet ae "end").getD (.s "23:59")) = .ok et →
      (((alistGet se "blocked_days").getD (.seqV [])).truthy = false ∨
        pyContains now.dayName ((alistGet se "blocked_days").getD (.seqV []))
          = .ok false) →
      codeWindowMember (timeToMinutes st)
        (if timeToMinutes et = 0 then 24 * 60 else timeToMinutes et)
        (now.hour * 60 + now.minute) = true →
      (alistGet se "blocked_periods").getD (.seqV []) = .seqV items →
      checkBlockedPeriods (now.hour * 60 + now.minute) items = .ok (some nameV) →
      check_schedule config now =
        .ok ⟨"blocked", some "blocked_period", some nameV⟩) ∧
    (∀ (mnow : Nat) (e : List (String × YVal)) (sv ev : YVal)
       (st et : Nat × Nat) (rest : List YVal),
      alistGet e "start" = some sv → parseTimeV sv = .ok st →
      alistGet e "end" = some ev → parseTimeV ev = .ok et →
      codeWindowMember (timeToMinutes st) (timeToMinutes et) mnow = true →
      checkBlockedPeriods mnow (.m e :: rest) =
        .ok (some ((alistGet e "name").getD (.s "unknown")))) ∧
    (∀ (mnow : Nat) (e : List (String × YVal)) (sv ev : YVal)
       (st et : Nat × Nat) (rest : List YVal),
      alistGet e "start" = some sv → parseTimeV sv = .ok st →
      alistGet e "end" = some ev → parseTimeV ev = .ok et →
      codeWindowMember (timeToMinutes st) (timeToMinutes et) mnow = false →
      checkBlockedPeriods mnow (.m e :: rest) = checkBlockedPeriods mnow rest) ∧
    (∀ (config : List (String × YVal)) (se ae we : List (String × YVal))
       (st et wt : Nat × Nat) (now : NowT) (items : List YVal) (wv : YVal),
      (alistGet config "schedule").getD (.m []) = .m se →
      (alistGet se "allowed_hours").getD (.m []) = .m ae →
      parseTimeV ((alistGet ae "start").getD (.s "00:00")) = .ok st →
      parseTimeV ((alistGet ae "end").getD (.s "23:59")) = .ok et →
      (((alistGet se "blocked_days").getD (.seqV [])).truthy = false ∨
        pyContains now.dayName ((alistGet se "blocked_days").getD (.seqV []))
          = .ok false) →
      codeWindowMember (timeToMinutes st)
        (if timeToMinutes et = 0 then 24 * 60 else timeToMinutes et)
        (now.hour * 60 + now.minute) = true →
      (alistGet se "blocked_periods").getD (.seqV []) = .seqV items →
      checkBlockedPeriods (now.hour * 60 + now.minute) items = .ok none →
      (alistGet se "wind_down").getD .nullV = .m we →
      we.isEmpty = false →
      alistGet we "start" = some wv →
      parseTimeV wv = .ok wt →
      check_schedule config now =
        .ok (if codeWindowMember (timeToMinutes wt)
                (if timeToMinutes et = 0 then 24 * 60 else timeToMinutes et)
                (now.hour * 60 + now.minute)
             then ⟨"wind_down", none, none⟩
             else ⟨"ok", none, none⟩)) ∧
    (∀ (config : List (String × YVal)) (se ae : List (String × YVal))
       (st et : Nat × Nat) (now : NowT) (items : List YVal),
      (alistGet config "schedule").getD (.m []) = .m se →
      (alistGet se "allowed_hours").getD (.m []) = .m ae →
      parseTimeV ((alistGet ae "start").getD (.s "00:00")) = .ok st →
      parseTimeV ((alistGet ae "end").getD (.s "23:59")) = .ok et →
      (((alistGet se "blocked_days").getD (.seqV [])).truthy = false ∨
        pyContains now.dayName ((alistGet se "blocked_days").getD (.seqV []))
          = .ok false) →
      codeWindowMember (timeToMinutes st)
        (if timeToMinutes et = 0 then 24 * 60 else timeToMinutes et)
        (now.hour * 60 + now.minute) = true →
      (alistGet se "blocked_periods").getD (.seqV []) = .seqV items →
      checkBlockedPeriods (now.hour * 60 + now.minute) items = .ok none →
      ((alistGet se "wind_down").getD .nullV).truthy = false →
      check_schedule config now = .ok ⟨"ok", none, none⟩) ∧
    check_schedule cfgScenario ⟨"Sunday", 8, 59⟩ =
      .ok ⟨"blocked", some "outside_hours", none⟩ ∧
    check_schedule cfgScenario ⟨"Sunday", 9, 0⟩ = .ok ⟨"ok", none, none⟩ ∧
    check_schedule cfgScenario ⟨"Sunday", 18, 0⟩ =
      .ok ⟨"blocked", some "blocked_period", some (.s "family")⟩ ∧
    check_schedule cfgScenario ⟨"Sunday", 21, 0⟩ = .ok ⟨"ok", none, none⟩ ∧
    check_schedule cfgScenario ⟨"Sunday", 23, 30⟩ = .ok ⟨"wind_down", none, none⟩ ∧
    check_schedule cfgScenario ⟨"Sunday", 0, 0⟩ =
      .ok ⟨"blocked", some "outside_hours", none⟩ ∧
    check_schedule cfgScenarioDayBlocked ⟨"Sunday", 18, 0⟩ =
      .ok ⟨"blocked", some "blocked_day", none⟩ ∧
    check_schedule cfgScenarioDayBlocked ⟨"Sunday", 3, 0⟩ =
      .ok ⟨"blocked", some "blocked_day", none⟩ ∧
    check_schedule cfgScenarioDayBlocked ⟨"Sunday", 23, 45⟩ =
      .ok ⟨"blocked", some "blocked_day", none⟩ ∧
    check_schedule cfgScenarioOverlap ⟨"Sunday", 19, 0⟩ =
      .ok ⟨"blocked", some "blocked_period", some (.s "family")⟩ ∧
    check_schedule cfgScenarioLatePeriod ⟨"Sunday", 23, 45⟩ =
      .ok ⟨"blocked", some "blocked_period", some (.s "late")⟩ ∧
    check_schedule cfgC4HoursPeriod ⟨"Monday", 19, 0⟩ =
      .ok ⟨"blocked", some "outside_hours", none⟩ ∧
    check_schedule cfgC4HoursWind ⟨"Monday", 20, 30⟩ =
      .ok ⟨"blocked", some "outside_hours", none⟩ :=
  ⟨checkSchedule_blocked_day_wins, checkSchedule_outside_hours_second,
   checkSchedule_blocked_period_third, checkBlockedPeriods_head_match_wins,
   checkBlockedPeriods_head_skip, checkSchedule_wind_down_fourth,
   checkSchedule_ok_when_no_wind_down,
   rfl, rfl, rfl, rfl, rfl, rfl, rfl, rfl, rfl, rfl, rfl, rfl, rfl⟩

/-- Witness for C4's universal precedence conjuncts: the blocked-day
conjunct applied to the day-blocked scenario config at 12:30, and the
allowed-hours conjunct applied to the hours-over-period config at 19:30
(inside the listed evening period, outside the allowed hours). -/
theorem c4_witness :
    check_schedule cfgScenarioDayBlocked ⟨"Sunday", 12, 30⟩ =
      .ok ⟨"blocked", some "blocked_day", none⟩ ∧
    check_schedule cfgC4HoursPeriod ⟨"Monday", 19, 30⟩ =
      .ok ⟨"blocked", some "outside_hours", none⟩ :=
  ⟨c4_precedence_and_scenario.1 cfgScenarioDayBlocked
     [("allowed_hours", .m [("start", .s "09:00"), ("end", .s "00:00")]),
      ("blocked_days", .seqV [.s "Sunday"]),
      ("blocked_periods", .seqV [.m [("name", .s "family"),
        ("start", .s "18:00"), ("end", .s "21:00")]]),
      ("wind_down", .m [("start", .s "23:30")])]
     [("start", .s "09:00"), ("end", .s "00:00")]
     (9, 0) (0, 0) ⟨"Sunday", 12, 30⟩ rfl rfl rfl rfl rfl rfl,
   c4_precedence_and_scenario.2.1 cfgC4HoursPeriod
     [("allowed_hours", .m [("start", .s "09:00"), ("end", .s "17:00")]),
      ("blocked_periods", .seqV [.m [("name", .s "evening"),
        ("start", .s "18:00"), ("end", .s "21:00")]])]
     [("start", .s "09:00"), ("end", .s "17:00")]
     (9, 0) (17, 0) ⟨"Monday", 19, 30⟩ rfl rfl rfl rfl (Or.inl rfl) rfl⟩

/-- Claim C3, counterexample: on a configuration carrying the schema
marker whose blocked period lacks a `start` key, `check_schedule`
propagates a `KeyError` to its caller instead of terminating with a
verdict, refuting the claim that no core operation raises on any
configuration content. -/
theorem c3_counterexample :
    check_schedule cfgC3bad ⟨"Monday", 12, 0⟩ = .error .keyErr := rfl

/-- Claim C1: the repository's tests and spec make `work_since_break`
authoritative for break accounting (88 minutes < 150 means no break is
required), but `check_break` in the source never reads the field: on the
test ledger it charges the full 693-minute wall-clock duration and
returns `ok = false` with 13 minutes left. -/
theorem c1_code_ignores_work_since_break :
    c1Record.work_since_break = some (.fint 88) ∧
    check_break [c1Record] 15 81000 150 = ⟨false, 13⟩ := ⟨rfl, rfl⟩

/-- Claim C2: the repository's tests require `end_session` to read the
work-since-break sentinel, store it as an integer on the record, and
delete the sentinel, but the source's `end_session` contains no such code:
after ending the session the record's `work_since_break` is still unset
and the sentinel is still present (while `end_time` and `last_activity`
were set from the activity sentinel as usual). -/
theorem c2_end_session_ignores_wsb_sentinel :
    ((end_session c2State "ab12cd34" 3000).sessions.map Record.work_since_break)
      = [none] ∧
    (end_session c2State "ab12cd34" 3000).workSinceBreak = [("ab12cd34", 88)] ∧
    ((end_session c2State "ab12cd34" 3000).sessions.map Record.last_activity)
      = [some (.fstr (.okS 2000))] :=
  ⟨rfl, rfl, rfl⟩

/-- Claim C5, counterexample: for a blocked period with start = end =
12:00, the source uses the wraparound form (because it wraps whenever
start is not strictly less than end) and therefore blocks 13:00, while
the claim's membership — wraparound exactly when start > end — makes the
13:00 minute fall outside the empty window `[720, 720)`. -/
theorem c5_counterexample :
    check_schedule cfgC5noon ⟨"Monday", 13, 0⟩ =
      .ok ⟨"blocked", some "blocked_period", some (.s "noon")⟩ ∧
    specWindowMember 720 720 780 = false := ⟨rfl, rfl⟩

/-- Helper: Python `int()` truncation of a nonnegative exact value `a/60`
is the rational floor. -/
theorem tdiv60_eq_floor (a : ℤ) (h : 0 ≤ a) :
    Int.tdiv a 60 = ⌊(a : ℚ) / (60 : ℚ)⌋ := by
  have h60 : ((60 : ℕ) : ℚ) = (60 : ℚ) := by norm_num
  rw [← h60, Rat.floor_intCast_div_natCast a 60, Int.tdiv_eq_ediv h (by norm_num)]
  norm_num

/-- Claim C6, counterexample: with one 150-minute closed session ending at
second 9000 and `now` at second 9630 (elapsed 10.5 minutes), the break is
required and the code returns `minutes_left = int(15 - 10.5) = 4`, while
the claim's `ceil(min_break_minutes - elapsed)` is 5. -/
theorem c6_counterexample :
    check_break [c6Record] 15 9630 150 = ⟨false, 4⟩ ∧
    (⌈(15 : ℚ) - 630 / 60⌉ : ℤ) = 5 :=
  ⟨rfl, by rw [Int.ceil_eq_iff]; norm_num⟩

/-- Claim C6, amended: whenever `check_break` requires a break (cumulative
work at least `max_continuous_minutes * 60` seconds and elapsed seconds
since the most recent interaction anchor below `min_break_minutes * 60`),
it returns `ok = false` with `minutes_left` equal to the FLOOR (Python
`int()` truncation of a positive value) of `min_break_minutes - elapsed`
in minutes, not the ceiling. -/
theorem c6_amended_minutes_left_floor
    (sessions : List Record) (mb maxc now cum li : Int)
    (hne : sessions ≠ [])
    (hact : sessions.any (activeBypass now) = false)
    (hwalk : walkSessions mb sessions.reverse 0 none none = (cum, some li))
    (hcum : maxc * 60 ≤ cum)
    (helapsed : now - li < mb * 60) :
    check_break sessions mb now maxc =
      ⟨false, ⌊(mb : ℚ) - ((now - li : ℤ) : ℚ) / 60⌋⟩ := by
  unfold check_break
  rw [if_neg hne, hact, hwalk]
  simp only [Bool.false_eq_true, if_false]
  rw [if_neg (not_lt.mpr hcum), if_neg (not_le.mpr helapsed)]
  have hcast : (mb : ℚ) - ((now - li : ℤ) : ℚ) / 60 =
      ((mb * 60 - (now - li) : ℤ) : ℚ) / (60 : ℚ) := by
    push_cast
    ring
  rw [hcast, ← tdiv60_eq_floor _ (by omega)]

/-- Witness for C6 amended, instantiated at the counterexample ledger:
elapsed 630 seconds, floor of `15 - 630/60` minutes left. -/
theorem c6_amended_witness :
    check_break [c6Record] 15 9630 150 =
      ⟨false, ⌊(15 : ℚ) - ((9630 - 9000 : ℤ) : ℚ) / 60⌋⟩ :=
  c6_amended_minutes_left_floor [c6Record] 15 150 9630 9000 9000
    (by simp) rfl rfl (by norm_num) (by norm_num)

/-- Claim C7: whenever the ledger contains an open record (`end_time`
null or absent) whose truthy `start_time` parses to an age in `[0, 4h)`
relative to `now`, `check_break` returns `ok = true, minutes_left = 0`
regardless of any accumulated work in closed records. -/
theorem c7_active_session_bypasses_break
    (sessions : List Record) (mb maxc now : Int) (s : Record) (t : Int)
    (hmem : s ∈ sessions)
    (hopen : fieldIsNone s.end_time = true)
    (htr : fieldTruthy s.start_time = true)
    (hp : parseNaiveField s.start_time = .ok t)
    (h0 : 0 ≤ now - t) (h4 : now - t < 4 * 3600) :
    check_break sessions mb now maxc = ⟨true, 0⟩ := by
  have hne : sessions ≠ [] := by
    intro h
    subst h
    simp at hmem
  have hact : sessions.any (activeBypass now) = true := by
    rw [List.any_eq_true]
    refine ⟨s, hmem, ?_⟩
    unfold activeBypass
    rw [hopen, htr, hp]
    simp [ORPHAN_THRESHOLD_HOURS]
    omega
  unfold check_break
  rw [if_neg hne, if_pos hact]

/-- An open record ten minutes old, for the C7 witness. -/
def c7Open : Record :=
  { id := "active"
    start_time := some (.fstr (.okS 600))
    end_time := some .fnull }

/-- A closed 595-minute session ending five minutes before `now`, whose
accumulated work would otherwise require a break, for the C7 witness. -/
def c7Closed : Record :=
  { id := "done"
    start_time := some (.fstr (.okS (-36000)))
    end_time := some (.fstr (.okS 900)) }

/-- Witness for C7: an open ten-minute-old session bypasses break
enforcement even next to 595 minutes of accumulated closed work. -/
theorem c7_witness :
    check_break [c7Closed, c7Open] 15 1200 150 = ⟨true, 0⟩ :=
  c7_active_session_bypasses_break [c7Closed, c7Open] 15 150 1200 c7Open 600
    (by simp) rfl rfl rfl (by norm_num) (by norm_num)

/-- Claim C9: starting one session on an empty ledger at `t1` (fresh id,
so no stale activity sentinel exists for it) and ending it with the
returned id at `t2 ≥ t1` leaves exactly one record, with a non-null
`end_time` and a `last_activity` no earlier than its `start_time`. -/
theorem c9_round_trip
    (A : List (String × IsoS)) (W : List (String × Int)) (M : List (String × String))
    (sid pd : String) (f : Bool) (t1 t2 : Int)
    (hA : alistGet A sid = none)
    (ht : t1 ≤ t2) :
    ((end_session (start_session ⟨[], A, W, M⟩ sid t1 pd f).1
        (start_session ⟨[], A, W, M⟩ sid t1 pd f).2 t2).sessions.length = 1) ∧
    ∀ r ∈ (end_session (start_session ⟨[], A, W, M⟩ sid t1 pd f).1
        (start_session ⟨[], A, W, M⟩ sid t1 pd f).2 t2).sessions,
      fieldIsNone r.end_time = false ∧
      ∃ s la, parseNaiveField r.start_time = .ok s ∧
        parseNaiveField r.last_activity = .ok la ∧ s ≤ la := by
  have hsess : (end_session (start_session ⟨[], A, W, M⟩ sid t1 pd f).1
      (start_session ⟨[], A, W, M⟩ sid t1 pd f).2 t2).sessions =
      [{ id := sid, start_time := some (.fstr (.okS t1)),
         end_time := some (.fstr (.okS t2)), project_dir := pd, forced := f,
         last_activity := some (.fstr (.okS t2)), work_since_break := none }] := by
    simp [start_session, end_session, updateFirstOpen, endMatches,
      endSessionRecord, hA, fieldTruthy]
  rw [hsess]
  refine ⟨rfl, ?_⟩
  intro r hr
  simp only [List.mem_singleton] at hr
  subst hr
  exact ⟨rfl, t1, t2, rfl, rfl, ht⟩

/-- Witness for C9 at a concrete state: empty sentinel stores, session
from time 100 to time 250. -/
theorem c9_witness :
    ((end_session (start_session ⟨[], [], [], []⟩ "ab" 100 "/tmp" false).1
        (start_session ⟨[], [], [], []⟩ "ab" 100 "/tmp" false).2 250).sessions.length
      = 1) ∧
    ∀ r ∈ (end_session (start_session ⟨[], [], [], []⟩ "ab" 100 "/tmp" false).1
        (start_session ⟨[], [], [], []⟩ "ab" 100 "/tmp" false).2 250).sessions,
      fieldIsNone r.end_time = false ∧
      ∃ s la, parseNaiveField r.start_time = .ok s ∧
        parseNaiveField r.last_activity = .ok la ∧ s ≤ la :=
  c9_round_trip [] [] [] "ab" "/tmp" false 100 250 rfl (by norm_num)

/-- Claim C10: when the schedule section (possibly absent, or present as a
mapping) has no `allowed_hours` key, `check_schedule` defaults the window
to start 00:00 and end 23:59, so at minute 23:59 of any day that passes
the blocked-day check the verdict is blocked/outside_hours even though no
hour restriction was configured. -/
theorem c10_missing_allowed_hours_blocks_2359
    (config : List (String × YVal)) (se : List (String × YVal)) (dn : String)
    (hsched : (alistGet config "schedule").getD (.m []) = .m se)
    (hnoAH : alistGet se "allowed_hours" = none)
    (hday : YVal.truthy ((alistGet se "blocked_days").getD (.seqV [])) = false ∨
            pyContains dn ((alistGet se "blocked_days").getD (.seqV [])) = .ok false) :
    check_schedule config ⟨dn, 23, 59⟩ =
      .ok ⟨"blocked", some "outside_hours", none⟩ := by
  have h1 : parseTimeV (.s "00:00") = .ok (0, 0) := rfl
  have h2 : parseTimeV (.s "23:59") = .ok (23, 59) := rfl
  rcases hday with h | h
  · simp [check_schedule, hsched, pyGet, hnoAH, h, h1, h2, timeToMinutes, alistGet,
      Bind.bind, Except.bind, Pure.pure, Except.pure]
  · cases htr : YVal.truthy ((alistGet se "blocked_days").getD (.seqV []))
    · simp [check_schedule, hsched, pyGet, hnoAH, htr, h1, h2, timeToMinutes, alistGet,
        Bind.bind, Except.bind, Pure.pure, Except.pure]
    · simp [check_schedule, hsched, pyGet, hnoAH, htr, h, h1, h2, timeToMinutes, alistGet,
        Bind.bind, Except.bind, Pure.pure, Except.pure]

/-- Witness for C10: a marker-only config with an empty schedule section,
evaluated at 23:59 on a Monday. -/
theorem c10_witness :
    check_schedule [("framework", .s "human-md"), ("schedule", .m [])]
      ⟨"Monday", 23, 59⟩ = .ok ⟨"blocked", some "outside_hours", none⟩ :=
  c10_missing_allowed_hours_blocks_2359
    [("framework", .s "human-md"), ("schedule", .m [])] [] "Monday"
    rfl rfl (Or.inl rfl)

/-! ### Well-formedness of schedule values (for the amended C3) -/

/-- A value that `_parse_time` accepts. -/
def wfTimeVal (v : YVal) : Bool := (parseTimeV v).isOk

/-- Blocked-days values whose truthiness test and membership test cannot
raise: everything except a non-zero integer (`None` and `0` are falsy and
short-circuit). -/
def wfBlockedDays : YVal → Bool
  | .i n => decide (n = 0)
  | _ => true

/-- A blocked period the loop body of `check_schedule` accepts: a mapping
with parseable `start` and `end`. -/
def wfBlockedPeriod : YVal → Bool
  | .m e =>
    (match alistGet e "start" with
     | some v => wfTimeVal v
     | none => false) &&
    (match alistGet e "end" with
     | some v => wfTimeVal v
     | none => false)
  | _ => false

/-- A blocked-periods value that iterates without fault: a sequence of
well-formed periods. -/
def wfBlockedPeriodsVal : YVal → Bool
  | .seqV items => items.all wfBlockedPeriod
  | _ => false

/-- A wind-down value the source accepts: falsy, or a mapping whose
`start` parses. -/
def wfWindDown (wd : YVal) : Bool :=
  if wd.truthy then
    match wd with
    | .m we =>
      (match alistGet we "start" with
       | some v => wfTimeVal v
       | none => false)
    | _ => false
  else true

/-- An allowed-hours value the source accepts: a mapping whose `start`
and `end` (after defaulting) parse. -/
def wfAllowedHours : YVal → Bool
  | .m ae =>
    wfTimeVal ((alistGet ae "start").getD (.s "00:00")) &&
    wfTimeVal ((alistGet ae "end").getD (.s "23:59"))
  | _ => false

/-- A schedule section on which every dynamic access of `check_schedule`
succeeds. -/
def wfScheduleVal : YVal → Bool
  | .m se =>
    wfAllowedHours ((alistGet se "allowed_hours").getD (.m [])) &&
    wfBlockedDays ((alistGet se "blocked_days").getD (.seqV [])) &&
    wfBlockedPeriodsVal ((alistGet se "blocked_periods").getD (.seqV [])) &&
    wfWindDown ((alistGet se "wind_down").getD .nullV)
  | _ => false

/-- Top-level well-formedness: the config's schedule section (defaulted
to an empty mapping) is well-formed. -/
def wfSchedule (config : List (String × YVal)) : Bool :=
  wfScheduleVal ((alistGet config "schedule").getD (.m []))

/-- Helper: membership testing against a truthy well-formed blocked-days
value never raises. -/
theorem pyContains_wf_ok (dn : String) (bd : YVal)
    (h : wfBlockedDays bd = true) (htr : bd.truthy = true) :
    ∃ b, pyContains dn bd = .ok b := by
  cases bd with
  | s str => exact ⟨_, rfl⟩
  | m e => exact ⟨_, rfl⟩
  | seqV l => exact ⟨_, rfl⟩
  | i n =>
    simp only [wfBlockedDays, decide_eq_true_eq] at h
    subst h
    simp [YVal.truthy] at htr
  | nullV => simp [YVal.truthy] at htr

/-- Helper: the blocked-period loop never raises on well-formed periods. -/
theorem checkBlockedPeriods_ok (mnow : Nat) (l : List YVal)
    (h : l.all wfBlockedPeriod = true) :
    ∃ r, checkBlockedPeriods mnow l = .ok r := by
  induction l with
  | nil => exact ⟨none, rfl⟩
  | cons bp rest ih =>
    rw [List.all_cons, Bool.and_eq_true] at h
    obtain ⟨hbp, hrest⟩ := h
    obtain ⟨r, hr⟩ := ih hrest
    cases bp with
    | s str => simp [wfBlockedPeriod] at hbp
    | i n => simp [wfBlockedPeriod] at hbp
    | nullV => simp [wfBlockedPeriod] at hbp
    | seqV l2 => simp [wfBlockedPeriod] at hbp
    | m e =>
      simp only [wfBlockedPeriod, Bool.and_eq_true] at hbp
      obtain ⟨h1, h2⟩ := hbp
      cases hs : alistGet e "start" with
      | none => rw [hs] at h1; simp at h1
      | some sv =>
        cases he : alistGet e "end" with
        | none => rw [he] at h2; simp at h2
        | some ev =>
          rw [hs] at h1
          rw [he] at h2
          simp only [wfTimeVal] at h1 h2
          cases hps : parseTimeV sv with
          | error e1 => rw [hps] at h1; simp [Except.isOk, Except.toBool] at h1
          | ok st =>
            cases hpe : parseTimeV ev with
            | error e2 => rw [hpe] at h2; simp [Except.isOk, Except.toBool] at h2
            | ok et =>
              unfold checkBlockedPeriods
              simp only [pyIndex, hs, he, hps, hpe, pyGet,
                Bind.bind, Except.bind, Pure.pure, Except.pure]
              split <;> split
              · exact ⟨_, rfl⟩
              · exact ⟨r, hr⟩
              · exact ⟨_, rfl⟩
              · exact ⟨r, hr⟩

/-- Claim C3, amended: the no-unhandled-fault guarantee does not hold of
`check_schedule`, the operation the claim singles out — on a
configuration carrying the schema marker with a malformed schedule value
(e.g. a blocked period missing its `start`) it propagates an exception
to its caller instead of producing a verdict (the counterexample); it
does terminate normally with a verdict, for every timestamp, whenever
the schedule section's values are well-formed (`wfSchedule`, a
sufficient condition). No no-raise guarantee is claimed here for the
other core operations. -/
theorem c3_amended_wellformed_no_raise (config : List (String × YVal)) (now : NowT)
    (h : wfSchedule config = true) :
    ∃ v, check_schedule config now = .ok v := by
  unfold wfSchedule at h
  cases hsched : (alistGet config "schedule").getD (.m []) with
  | s str => rw [hsched] at h; simp [wfScheduleVal] at h
  | i n => rw [hsched] at h; simp [wfScheduleVal] at h
  | nullV => rw [hsched] at h; simp [wfScheduleVal] at h
  | seqV l => rw [hsched] at h; simp [wfScheduleVal] at h
  | m se =>
    rw [hsched] at h
    simp only [wfScheduleVal, Bool.and_eq_true] at h
    obtain ⟨⟨⟨hAH, hBD⟩, hBP⟩, hWD⟩ := h
    cases hah : (alistGet se "allowed_hours").getD (.m []) with
    | s str => rw [hah] at hAH; simp [wfAllowedHours] at hAH
    | i n => rw [hah] at hAH; simp [wfAllowedHours] at hAH
    | nullV => rw [hah] at hAH; simp [wfAllowedHours] at hAH
    | seqV l => rw [hah] at hAH; simp [wfAllowedHours] at hAH
    | m ae =>
      rw [hah] at hAH
      simp only [wfAllowedHours, Bool.and_eq_true] at hAH
      obtain ⟨hst, hen⟩ := hAH
      simp only [wfTimeVal] at hst hen
      cases hpst : parseTimeV ((alistGet ae "start").getD (.s "00:00")) with
      | error e1 => rw [hpst] at hst; simp [Except.isOk, Except.toBool] at hst
      | ok st =>
        cases hpen : parseTimeV ((alistGet ae "end").getD (.s "23:59")) with
        | error e2 => rw [hpen] at hen; simp [Except.isOk, Except.toBool] at hen
        | ok et =>
          cases hbp : (alistGet se "blocked_periods").getD (.seqV []) with
          | s str => rw [hbp] at hBP; simp [wfBlockedPeriodsVal] at hBP
          | i n => rw [hbp] at hBP; simp [wfBlockedPeriodsVal] at hBP
          | nullV => rw [hbp] at hBP; simp [wfBlockedPeriodsVal] at hBP
          | m e2 => rw [hbp] at hBP; simp [wfBlockedPeriodsVal] at hBP
          | seqV items =>
            rw [hbp] at hBP
            simp only [wfBlockedPeriodsVal] at hBP
            obtain ⟨bpr, hbpr⟩ :=
              checkBlockedPeriods_ok (now.hour * 60 + now.minute) items hBP
            have hwind : ∀ hwt : ((alistGet se "wind_down").getD YVal.nullV).truthy
                  = true,
                ∃ wv wt, pyIndex ((alistGet se "wind_down").getD YVal.nullV) "start"
                    = .ok wv ∧ parseTimeV wv = .ok wt := by
              intro hwt
              unfold wfWindDown at hWD
              rw [hwt] at hWD
              simp only [if_true] at hWD
              cases hwd : (alistGet se "wind_down").getD YVal.nullV with
              | s str => rw [hwd] at hWD; simp at hWD
              | i n => rw [hwd] at hWD; simp at hWD
              | nullV => rw [hwd] at hwt; simp [YVal.truthy] at hwt
              | seqV l2 => rw [hwd] at hWD; simp at hWD
              | m we =>
                rw [hwd] at hWD
                simp only [] at hWD
                cases hws : alistGet we "start" with
                | none => rw [hws] at hWD; simp at hWD
                | some wv =>
                  rw [hws] at hWD
                  simp only [wfTimeVal] at hWD
                  cases hwpt : parseTimeV wv with
                  | error e3 =>
                    rw [hwpt] at hWD
                    simp [Except.isOk, Except.toBool] at hWD
                  | ok wt =>
                    exact ⟨wv, wt, by simp [pyIndex, hwd, hws], hwpt⟩
            unfold check_schedule
            rw [hsched]
            cases htr : ((alistGet se "blocked_days").getD (.seqV [])).truthy with
            | false =>
              cases hwt : ((alistGet se "wind_down").getD YVal.nullV).truthy with
              | false =>
                simp only [pyGet, hah, hpst, hpen, htr, hbp, pyIterList, hbpr,
                  hwt, Bind.bind, Except.bind, Pure.pure, Except.pure,
                  Bool.false_eq_true, if_false]
                repeat' first
                | exact ⟨_, rfl⟩
                | split
              | true =>
                obtain ⟨wv, wt, hwi, hwpt⟩ := hwind hwt
                simp only [pyGet, hah, hpst, hpen, htr, hbp, pyIterList, hbpr,
                  hwt, hwi, hwpt, Bind.bind, Except.bind, Pure.pure, Except.pure,
                  Bool.false_eq_true, if_false, if_true]
                repeat' first
                | exact ⟨_, rfl⟩
                | split
            | true =>
              obtain ⟨db, hdb⟩ := pyContains_wf_ok now.dayName _ hBD htr
              cases hwt : ((alistGet se "wind_down").getD YVal.nullV).truthy with
              | false =>
                simp only [pyGet, hah, hpst, hpen, htr, hdb, hbp, pyIterList,
                  hbpr, hwt, Bind.bind, Except.bind, Pure.pure, Except.pure,
                  Bool.false_eq_true, if_false, if_true]
                repeat' first
                | exact ⟨_, rfl⟩
                | split
              | true =>
                obtain ⟨wv, wt, hwi, hwpt⟩ := hwind hwt
                simp only [pyGet, hah, hpst, hpen, htr, hdb, hbp, pyIterList,
                  hbpr, hwt, hwi, hwpt, Bind.bind, Except.bind, Pure.pure,
                  Except.pure, Bool.false_eq_true, if_false, if_true]
                repeat' first
                | exact ⟨_, rfl⟩
                | split

/-- Witness for the amended C3 at the scenario config. -/
theorem c3_amended_witness :
    wfSchedule cfgScenario = true ∧
    ∃ v, check_schedule cfgScenario ⟨"Monday", 12, 0⟩ = .ok v :=
  ⟨rfl, c3_amended_wellformed_no_raise cfgScenario ⟨"Monday", 12, 0⟩ rfl⟩

/-- Claim C5, amended: for every window kind, membership is half-open
`[start, end)` with the wraparound form `now >= start OR now < end` used
exactly when start is NOT strictly below end (for allowed hours and
wind-down after `end == 00:00` is treated as 1440): a single blocked
period over full-day allowed hours blocks exactly the minutes of
`codeWindowMember`, the allowed-hours verdict is outside_hours exactly
off `codeWindowMember` with the midnight-end adjustment, a configured
wind-down gives the wind_down verdict exactly on `codeWindowMember` of
its start against the adjusted allowed end (inside allowed hours),
`codeWindowMember` is the half-open test when `start < end` and the
wraparound test when `end <= start`, and for the window 22:00–06:00 the
minutes 23:00 and 03:00 are inside while 12:00 is outside. -/
theorem c5_amended_half_open_windows
    (sv ev wv : String) (st et wt : Nat × Nat) (dn : String) (hh mm : Nat)
    (hsv : parseTimeV (.s sv) = .ok st) (hev : parseTimeV (.s ev) = .ok et)
    (hwv : parseTimeV (.s wv) = .ok wt)
    (hhh : hh < 24) (hmm : mm < 60) :
    (check_schedule (cfgBP sv ev) ⟨dn, hh, mm⟩ =
      .ok (if codeWindowMember (timeToMinutes st) (timeToMinutes et) (hh * 60 + mm)
           then ⟨"blocked", some "blocked_period", some (.s "p")⟩
           else ⟨"ok", none, none⟩)) ∧
    (check_schedule (cfgAH sv ev) ⟨dn, hh, mm⟩ =
      .ok (if codeWindowMember (timeToMinutes st)
              (if timeToMinutes et = 0 then 1440 else timeToMinutes et)
              (hh * 60 + mm)
           then ⟨"ok", none, none⟩
           else ⟨"blocked", some "outside_hours", none⟩)) ∧
    (check_schedule (cfgWD sv ev wv) ⟨dn, hh, mm⟩ =
      .ok (if codeWindowMember (timeToMinutes st)
              (if timeToMinutes et = 0 then 1440 else timeToMinutes et)
              (hh * 60 + mm)
           then (if codeWindowMember (timeToMinutes wt)
                    (if timeToMinutes et = 0 then 1440 else timeToMinutes et)
                    (hh * 60 + mm)
                 then ⟨"wind_down", none, none⟩
                 else ⟨"ok", none, none⟩)
           else ⟨"blocked", some "outside_hours", none⟩)) ∧
    (∀ s e m, s < e → codeWindowMember s e m = decide (s ≤ m ∧ m < e)) ∧
    (∀ s e m, e ≤ s → codeWindowMember s e m = decide (m ≥ s ∨ m < e)) ∧
    codeWindowMember 1320 360 1380 = true ∧
    codeWindowMember 1320 360 180 = true ∧
    codeWindowMember 1320 360 720 = false := by
  have hm1440 : hh * 60 + mm < 1440 := by omega
  have h00 : parseTimeV (.s "00:00") = .ok (0, 0) := rfl
  refine ⟨?_, ?_, ?_, ?_, ?_, rfl, rfl, rfl⟩
  · simp [check_schedule, cfgBP, alistGet, pyGet, pyIterList,
      checkBlockedPeriods, pyIndex, h00, hsv, hev, YVal.truthy,
      timeToMinutes, codeWindowMember, hm1440,
      Bind.bind, Except.bind, Pure.pure, Except.pure]
    by_cases hc : (if st.1 * 60 + st.2 < et.1 * 60 + et.2
        then st.1 * 60 + st.2 ≤ hh * 60 + mm ∧ hh * 60 + mm < et.1 * 60 + et.2
        else st.1 * 60 + st.2 ≤ hh * 60 + mm ∨ hh * 60 + mm < et.1 * 60 + et.2)
    · simp [hc]
    · simp [hc]
  · simp [check_schedule, cfgAH, alistGet, pyGet, pyIterList,
      checkBlockedPeriods, pyIndex, hsv, hev, YVal.truthy,
      timeToMinutes, codeWindowMember, hm1440,
      Bind.bind, Except.bind, Pure.pure, Except.pure]
    by_cases hc : (if st.1 * 60 + st.2 < (if et.1 = 0 ∧ et.2 = 0 then 1440 else et.1 * 60 + et.2)
        then st.1 * 60 + st.2 ≤ hh * 60 + mm ∧
          hh * 60 + mm < (if et.1 = 0 ∧ et.2 = 0 then 1440 else et.1 * 60 + et.2)
        else st.1 * 60 + st.2 ≤ hh * 60 + mm ∨
          hh * 60 + mm < (if et.1 = 0 ∧ et.2 = 0 then 1440 else et.1 * 60 + et.2))
    · simp [hc]
    · simp [hc]
  · simp [check_schedule, cfgWD, alistGet, pyGet, pyIterList,
      checkBlockedPeriods, pyIndex, hsv, hev, hwv, YVal.truthy,
      timeToMinutes, codeWindowMember, hm1440,
      Bind.bind, Except.bind, Pure.pure, Except.pure]
    by_cases hc1 : (if st.1 * 60 + st.2 <
          (if et.1 = 0 ∧ et.2 = 0 then 1440 else et.1 * 60 + et.2)
        then st.1 * 60 + st.2 ≤ hh * 60 + mm ∧
          hh * 60 + mm < (if et.1 = 0 ∧ et.2 = 0 then 1440 else et.1 * 60 + et.2)
        else st.1 * 60 + st.2 ≤ hh * 60 + mm ∨
          hh * 60 + mm < (if et.1 = 0 ∧ et.2 = 0 then 1440 else et.1 * 60 + et.2))
    · by_cases hc2 : (if wt.1 * 60 + wt.2 <
            (if et.1 = 0 ∧ et.2 = 0 then 1440 else et.1 * 60 + et.2)
          then wt.1 * 60 + wt.2 ≤ hh * 60 + mm ∧
            hh * 60 + mm < (if et.1 = 0 ∧ et.2 = 0 then 1440 else et.1 * 60 + et.2)
          else wt.1 * 60 + wt.2 ≤ hh * 60 + mm ∨
            hh * 60 + mm < (if et.1 = 0 ∧ et.2 = 0 then 1440 else et.1 * 60 + et.2))
      · simp [hc1, hc2]
      · simp [hc1, hc2]
    · simp [hc1]
  · intro s e m h
    simp [codeWindowMember, h]
  · intro s e m h
    simp [codeWindowMember, Nat.not_lt.mpr h]

/-- Witness for the amended C5 at the overnight window 22:00–06:00 with
wind-down start 05:30, evaluated at 23:00. -/
theorem c5_amended_witness :
    (check_schedule (cfgBP "22:00" "06:00") ⟨"Monday", 23, 0⟩ =
      .ok (if codeWindowMember (timeToMinutes (22, 0)) (timeToMinutes (6, 0))
              (23 * 60 + 0)
           then ⟨"blocked", some "blocked_period", some (.s "p")⟩
           else ⟨"ok", none, none⟩)) ∧
    (check_schedule (cfgAH "22:00" "06:00") ⟨"Monday", 23, 0⟩ =
      .ok (if codeWindowMember (timeToMinutes (22, 0))
              (if timeToMinutes (6, 0) = 0 then 1440 else timeToMinutes (6, 0))
              (23 * 60 + 0)
           then ⟨"ok", none, none⟩
           else ⟨"blocked", some "outside_hours", none⟩)) ∧
    (check_schedule (cfgWD "22:00" "06:00" "05:30") ⟨"Monday", 23, 0⟩ =
      .ok (if codeWindowMember (timeToMinutes (22, 0))
              (if timeToMinutes (6, 0) = 0 then 1440 else timeToMinutes (6, 0))
              (23 * 60 + 0)
           then (if codeWindowMember (timeToMinutes (5, 30))
                    (if timeToMinutes (6, 0) = 0 then 1440 else timeToMinutes (6, 0))
                    (23 * 60 + 0)
                 then ⟨"wind_down", none, none⟩
                 else ⟨"ok", none, none⟩)
           else ⟨"blocked", some "outside_hours", none⟩)) ∧
    (∀ s e m, s < e → codeWindowMember s e m = decide (s ≤ m ∧ m < e)) ∧
    (∀ s e m, e ≤ s → codeWindowMember s e m = decide (m ≥ s ∨ m < e)) ∧
    codeWindowMember 1320 360 1380 = true ∧
    codeWindowMember 1320 360 180 = true ∧
    codeWindowMember 1320 360 720 = false :=
  c5_amended_half_open_windows "22:00" "06:00" "05:30" (22, 0) (6, 0) (5, 30)
    "Monday" 23 0 rfl rfl rfl (by norm_num) (by norm_num)

/-- Claim C8: `parse_yaml` is a total function of the input text (the
embedded structural parser terminates on every input — its Lean embedding
carries a termination proof), and whenever the inner structural parse
fails (its only failure mode, the empty-key `ValueError`), the wrapper
yields the empty mapping; in every case the result is either the empty
mapping or the structural parser's successful result. -/
theorem c8_parse_yaml_failsafe (text : String) :
    (∀ e, doParseYaml text = .error e → parse_yaml text = []) ∧
    (parse_yaml text = [] ∨ ∃ v, doParseYaml text = .ok v ∧ parse_yaml text = v) := by
  by_cases hws : text.toList.all Char.isWhitespace = true
  · constructor
    · intro e he
      unfold parse_yaml
      rw [hws]
      rfl
    · left
      unfold parse_yaml
      rw [hws]
      rfl
  · have hws' : text.toList.all Char.isWhitespace = false := by
      simpa using hws
    constructor
    · intro e he
      unfold parse_yaml
      rw [hws', he]
      rfl
    · cases hdo : doParseYaml text with
      | error e =>
        left
        unfold parse_yaml
        rw [hws', hdo]
        rfl
      | ok v =>
        right
        refine ⟨v, rfl, ?_⟩
        unfold parse_yaml
        rw [hws', hdo]
        rfl

/-- Witness for C8 at the broken input `":"` (empty key), which makes the
structural parser fail and `parse_yaml` return the empty mapping. -/
theorem c8_witness :
    doParseYaml ":" = .error .valueErr ∧ parse_yaml ":" = [] :=
  ⟨by simp [doParseYaml, preprocessLines, normChars, splitChar, trimChars,
      parseMappingFrom, idxOfColon, startsDash, stripInlineComment,
      findCommentCut, dictSet, parseScalar, parsePyIntChars, digitsToNat,
      joinSpaces, parseFolded, List.asString],
   (c8_parse_yaml_failsafe ":").1 .valueErr
     (by simp [doParseYaml, preprocessLines, normChars, splitChar, trimChars,
       parseMappingFrom, idxOfColon, startsDash, stripInlineComment,
       findCommentCut, dictSet, parseScalar, parsePyIntChars, digitsToNat,
       joinSpaces, parseFolded, List.asString])⟩

end HumanGuard
